import Mathlib

/-!
Verification development for the xdChrome-tool repository.

The session-resilience core is shallowly embedded in Lean:
the proxy pool (src/xd-chrome-extended/xd-extended-proxy.js), the
request filter (src/src/xd-chrome-extended/xd-extended-adblock.js), and the
snapshot / action layer (src/xd-chrome-tools.js with src/xd-chrome-core.js).

Modelling conventions:
- JavaScript timestamps (Date.now) are natural numbers counting milliseconds.
- JavaScript strings are Lean strings; the handful of string primitives the
  code relies on (includes, startsWith, endsWith, trim, toLowerCase) are
  re-implemented over the character list of the string so that every
  definition evaluates inside the kernel.
- Platform primitives that are external to the repository (the WHATWG URL
  constructor, the live page, the browser engine) are passed to the embedded
  functions as explicit parameters: a parse function, or an environment
  record holding the outcome of each engine call.
- Fallible code is embedded with Option / Except.
-/

namespace XdChrome

/-! ## JavaScript string primitives, re-implemented over character lists -/

/-- Decides whether the first list is a prefix of the second. -/
def listIsPrefixOf : List Char → List Char → Bool
  | [], _ => true
  | _ :: _, [] => false
  | a :: as, b :: bs => a == b && listIsPrefixOf as bs

/-- Decides whether the pattern occurs as a contiguous sublist of the haystack. -/
def listIncludes (pat : List Char) : List Char → Bool
  | [] => listIsPrefixOf pat []
  | c :: rest => listIsPrefixOf pat (c :: rest) || listIncludes pat rest

/-- Model of the JavaScript String.prototype.includes method. -/
def strIncludes (s pat : String) : Bool :=
  listIncludes pat.data s.data

/-- Model of the JavaScript String.prototype.startsWith method. -/
def strStartsWith (s pat : String) : Bool :=
  listIsPrefixOf pat.data s.data

/-- Model of the JavaScript String.prototype.endsWith method. -/
def strEndsWith (s pat : String) : Bool :=
  listIsPrefixOf pat.data.reverse s.data.reverse

/-- Model of the JavaScript String.prototype.toLowerCase method. -/
def strToLower (s : String) : String :=
  String.mk (s.data.map Char.toLower)

/-- Model of the JavaScript String.prototype.trim method. -/
def strTrim (s : String) : String :=
  String.mk (((s.data.dropWhile Char.isWhitespace).reverse.dropWhile
    Char.isWhitespace).reverse)

/-- Truthiness of a JavaScript string: the empty string is falsy. -/
def strTruthy (s : String) : Bool :=
  s != ""

/-- Truthiness of a nullable JavaScript string (null and the empty string are
falsy). -/
def optTruthy : Option String → Bool
  | none => false
  | some s => strTruthy s

/-! ## Proxy pool (src/xd-chrome-extended/xd-extended-proxy.js)

Constants from lines 10-14 of the source file. -/

/-- Failure count that triggers a ban (FAIL_THRESHOLD). -/
def FAIL_THRESHOLD : Nat := 3

/-- Failure window of 1 hour in milliseconds (FAIL_WINDOW_MS). -/
def FAIL_WINDOW_MS : Nat := 60 * 60 * 1000

/-- Ban duration of 12 hours in milliseconds (BAN_DURATION_MS). -/
def BAN_DURATION_MS : Nat := 12 * 60 * 60 * 1000

/-- Ban record stored per proxy URL in the persisted ban state. -/
structure BanRecord where
  bannedAt : Nat
  expiresAt : Nat
  failures : Nat
deriving Repr, DecidableEq

/-- Per-endpoint failure-tracking state: the recent failure timestamps held in
the failures map under the endpoint URL, and the ban record (if any) held in
the banned map under the same URL. -/
structure EndpointState where
  failures : List Nat
  ban : Option BanRecord
deriving Repr, DecidableEq

/-- Sliding-window pruning done inside reportFailure: keep the timestamps
with now minus ts strictly below the window. In the source the subtraction
is on JavaScript numbers; a timestamp in the future would give a negative
difference, which is below the window, exactly as truncated natural
subtraction gives zero, so the truncation is faithful. -/
def pruneWindow (now : Nat) (ts : List Nat) : List Nat :=
  ts.filter (fun t => now - t < FAIL_WINDOW_MS)

/-- Embedding of reportFailure (lines 113-124) for one endpoint: push the
current timestamp, prune the window, and ban when the pruned count reaches
the threshold. Returns the new state together with the returned boolean. -/
def reportFailure (now : Nat) (st : EndpointState) : EndpointState × Bool :=
  let fs := pruneWindow now (st.failures ++ [now])
  if fs.length < FAIL_THRESHOLD then
    ({ st with failures := fs }, false)
  else
    ({ failures := [],
       ban := some { bannedAt := now, expiresAt := now + BAN_DURATION_MS,
                     failures := fs.length } }, true)

/-- Embedding of reportSuccess (lines 127-130) for one endpoint: delete the
failure history, leaving any ban record untouched. -/
def reportSuccess (st : EndpointState) : EndpointState :=
  { st with failures := [] }

/-- Connection components produced by the WHATWG URL constructor for a proxy
address; the constructor itself is a platform primitive and enters the
embedding as a parameter of type String to Option ProxyParts. -/
structure ProxyParts where
  server : String
  username : String
  password : String
deriving Repr, DecidableEq

/-- Parsed proxy returned by getNextProxy / getCurrentProxy. -/
structure ParsedProxy where
  raw : String
  server : String
  username : String
  password : String
deriving Repr, DecidableEq

/-- Embedding of parseProxy (lines 78-88): build the parsed record from the
URL components, or null when the URL constructor throws. -/
def parseProxy (parseUrl : String → Option ProxyParts) (raw : String) :
    Option ParsedProxy :=
  match parseUrl raw with
  | some p => some { raw := raw, server := p.server, username := p.username,
                     password := p.password }
  | none => none

/-- Pool state of a ProxyManager: the (deduplicated, shuffled) URL list, the
round-robin cursor, the current URL, and the ban map of the persisted state. -/
structure PoolState where
  allUrls : List String
  index : Nat
  current : Option String
  banned : List (String × BanRecord)
  lastRotationAt : Nat
deriving Repr, DecidableEq

/-- Embedding of isBanned (lines 67-72): an endpoint is banned when a ban
record exists whose expiry is still in the future. The source also deletes an
expired record as a side effect; the deletion only removes records this
predicate already reports as not banned, so the decision itself is pure. -/
def isBanned (now : Nat) (banned : List (String × BanRecord)) (url : String) :
    Bool :=
  match banned.lookup url with
  | none => false
  | some b => decide (now < b.expiresAt)

/-- Local variable available of getNextProxy (line 92): the unbanned subset
of the pool, in pool order. -/
def availableUrls (now : Nat) (st : PoolState) : List String :=
  st.allUrls.filter (fun u => !isBanned now st.banned u)

/-- Advanced round-robin cursor of getNextProxy (line 94). -/
def nextIndex (now : Nat) (st : PoolState) : Nat :=
  (st.index + 1) % (availableUrls now st).length

/-- URL selected by getNextProxy (line 95). The default value of getD is
never used because the index is always in bounds when the available list is
nonempty. -/
def selectedUrl (now : Nat) (st : PoolState) : String :=
  (availableUrls now st).getD (nextIndex now st) ""

/-- Embedding of getNextProxy (lines 91-98): filter the unbanned URLs, return
null when none remain, otherwise advance the cursor modulo the available
count, select, and parse. -/
def getNextProxy (now : Nat) (parseUrl : String → Option ProxyParts)
    (st : PoolState) : Option ParsedProxy × PoolState :=
  if (availableUrls now st).length = 0 then (none, st)
  else
    (parseProxy parseUrl (selectedUrl now st),
     { st with index := nextIndex now st, current := some (selectedUrl now st),
               lastRotationAt := now })

/-- Embedding of the URL-normalization pipeline of the constructor
(line 23): coerce-and-trim every entry, drop falsy (empty) entries, then
deduplicate via Set insertion order (first occurrence wins, realized by a
fold that appends unseen entries). -/
def dedupFirst (l : List String) : List String :=
  l.foldl (fun acc v => if acc.contains v then acc else acc ++ [v]) []

/-- URL list produced by the ProxyManager constructor before shuffling. -/
def loadUrls (cfgUrls : List String) : List String :=
  dedupFirst ((cfgUrls.map strTrim).filter (fun v => strTruthy v))

/-- Swap of two positions of a list; out-of-range positions leave the list
unchanged (the shuffle only ever swaps in-bounds positions). -/
def lswap (l : List α) (i j : Nat) : List α :=
  match l[i]?, l[j]? with
  | some x, some y => (l.set i y).set j x
  | _, _ => l

/-- Loop of the Fisher-Yates shuffle (lines 35-41): iteration variable i runs
from the last index down to 1, swapping position i with a random position j
between 0 and i. The random draws of Math.random are supplied as a function
rand; the draw at iteration i is reduced modulo i + 1 to land in the range
the source produces with Math.floor(Math.random() * (i + 1)). -/
def fyAux (rand : Nat → Nat) : Nat → List String → List String
  | 0, l => l
  | i + 1, l => fyAux rand i (lswap l (i + 1) (rand (i + 1) % (i + 2)))

/-- Embedding of the shuffle (lines 35-41) applied to a whole list. -/
def shuffleUrls (rand : Nat → Nat) (l : List String) : List String :=
  fyAux rand (l.length - 1) l

/-- URL list held by a freshly constructed ProxyManager (constructor lines
22-32): normalization and deduplication followed by one shuffle. -/
def poolInit (rand : Nat → Nat) (cfgUrls : List String) : List String :=
  shuffleUrls rand (loadUrls cfgUrls)

/-- Concrete instance of the URL-parse parameter used by concrete
evaluations: the WHATWG URL constructor rejects a string that has no scheme
separator (new URL of a bare word throws) and accepts scheme-qualified
addresses. Only success or failure of the parse matters where this stub is
used. -/
def urlParseStub : String → Option ProxyParts := fun raw =>
  if strIncludes raw "://" then some { server := raw, username := "", password := "" }
  else none

/-! ## Request filter (src/src/xd-chrome-extended/xd-extended-adblock.js) -/

/-- Embedding of normalizeArray (line 7): coerce, trim, lowercase, and drop
falsy entries. -/
def normalizeArray (xs : List String) : List String :=
  (xs.map (fun v => strToLower (strTrim v))).filter (fun v => strTruthy v)

/-- Embedding of normalizeMode (line 10): anything other than the aggressive
mode, including a missing mode, normalizes to balanced. -/
def normalizeMode (mode : String) : String :=
  if strToLower mode = "aggressive" then "aggressive" else "balanced"

/-- Embedding of normalizeDomain (line 13): trim, lowercase, strip one
leading wildcard-dot, strip all trailing dots. -/
def normalizeDomain (value : String) : String :=
  let s := strToLower (strTrim value)
  let s := if strStartsWith s "*." then String.mk (s.data.drop 2) else s
  String.mk ((s.data.reverse.dropWhile (fun c => c == '.')).reverse)

/-- Embedding of hostMatchesDomain (lines 16-19): both sides are normalized
and the host matches exactly or as a subdomain. -/
def hostMatchesDomain (host domain : String) : Bool :=
  let h := normalizeDomain host
  let d := normalizeDomain domain
  strTruthy h && strTruthy d && (h == d || strEndsWith h ("." ++ d))

/-- Embedding of the inc operation of createLRUMap (lines 25-38). The map is
modelled as an association list in insertion order, oldest first, mirroring
the iteration order of a JavaScript Map: an existing key is deleted and
re-inserted at the back (recency bump), a new key evicts the front entry
when the map is at capacity. -/
def lruInc (maxSize : Nat) (m : List (String × Nat)) (key : String) :
    List (String × Nat) :=
  let next := (m.lookup key).getD 0 + 1
  if (m.lookup key).isSome then
    (m.filter (fun p => p.1 != key)) ++ [(key, next)]
  else if maxSize ≤ m.length then
    m.drop 1 ++ [(key, next)]
  else
    m ++ [(key, next)]

/-- Well-formedness of the LRU association list: keys are unique, as they are
for a JavaScript Map. -/
def wfLru (m : List (String × Nat)) : Prop :=
  (m.map Prod.fst).Nodup

/-- Adblock configuration consumed by createAdblockManager. The two
per-mode resource-type lists model the blockResourceTypes object literal. -/
structure AdblockConfig where
  enabled : Bool
  mode : String
  blockResourceTypesBalanced : List String
  blockResourceTypesAggressive : List String
  blockUrlPatterns : List String
  allowlistDomains : List String
deriving Repr

/-- Default configuration literal of createAdblockManager (lines 47-55). -/
def defaultAdblockConfig : AdblockConfig where
  enabled := true
  mode := "balanced"
  blockResourceTypesBalanced := ["media"]
  blockResourceTypesAggressive := ["image", "media", "font"]
  blockUrlPatterns := ["doubleclick.net", "googlesyndication.com",
    "googleadservices.com", "taboola.com", "outbrain.com", "criteo.com",
    "adnxs.com"]
  allowlistDomains := []

/-- Compiled rule cache produced by buildCache. The blocked-type Set is
modelled as a list queried by membership. -/
structure FilterCache where
  enabled : Bool
  mode : String
  blockedTypes : List String
  domainPatterns : List String
  urlPatterns : List String
  allowlistDomains : List String
deriving Repr

/-- Lookup of the per-mode resource-type list, modelling the indexed access
config.blockResourceTypes[mode] for the two normalized mode names. -/
def blockResourceTypesFor (cfg : AdblockConfig) (mode : String) : List String :=
  if mode = "aggressive" then cfg.blockResourceTypesAggressive
  else cfg.blockResourceTypesBalanced

/-- Embedding of buildCache (lines 61-73): normalize the mode, split the
block patterns into domain patterns (no slash, no question mark) and URL
patterns (the rest), normalize the blocked types and the allowlist. -/
def buildCache (cfg : AdblockConfig) : FilterCache :=
  let mode := normalizeMode cfg.mode
  let allPatterns := normalizeArray cfg.blockUrlPatterns
  let domainPatterns := allPatterns.filter
    (fun p => !(p.data.contains '/') && !(p.data.contains '?'))
  let urlPatterns := allPatterns.filter
    (fun p => p.data.contains '/' || p.data.contains '?')
  { enabled := cfg.enabled
    mode := mode
    blockedTypes := normalizeArray (blockResourceTypesFor cfg mode)
    domainPatterns := domainPatterns.map normalizeDomain
    urlPatterns := urlPatterns
    allowlistDomains := (normalizeArray cfg.allowlistDomains).map normalizeDomain }

/-- Decision record returned by evaluate. -/
structure FilterDecision where
  block : Bool
  host : Option String := none
  resourceType : Option String := none
  blockRule : Option String := none
deriving Repr, DecidableEq

/-- Host as computed inside evaluate (line 82): the hostname of the parsed
URL, normalized; the empty string when the URL constructor throws. The URL
constructor is a platform primitive passed as the parseHostname parameter. -/
def evalHost (parseHostname : String → Option String) (url : String) : String :=
  match parseHostname url with
  | some h => normalizeDomain h
  | none => ""

/-- Embedding of evaluate (lines 78-93): early allow for disabled filter,
empty URL and non-network schemes; unconditional allow on an allowlisted
host; block on a blocked resource type; for a non-document request, block on
a domain pattern and then on a URL substring pattern; otherwise allow. -/
def evaluate (parseHostname : String → Option String) (cache : FilterCache)
    (url0 resourceType0 : String) : FilterDecision :=
  if !cache.enabled || strToLower url0 = "" ||
      strStartsWith (strToLower url0) "data:" ||
      strStartsWith (strToLower url0) "blob:" ||
      strStartsWith (strToLower url0) "about:" then
    { block := false }
  else if strTruthy (evalHost parseHostname (strToLower url0)) &&
      cache.allowlistDomains.any
        (fun d => hostMatchesDomain (evalHost parseHostname (strToLower url0)) d) then
    { block := false }
  else if cache.blockedTypes.contains (strToLower resourceType0) then
    { block := true, host := some (evalHost parseHostname (strToLower url0)),
      resourceType := some (strToLower resourceType0),
      blockRule := some ("type:" ++ strToLower resourceType0) }
  else if strToLower resourceType0 != "document" then
    match cache.domainPatterns.find?
        (fun p => hostMatchesDomain (evalHost parseHostname (strToLower url0)) p) with
    | some p =>
      { block := true, host := some (evalHost parseHostname (strToLower url0)),
        resourceType := some (strToLower resourceType0),
        blockRule := some ("domain:" ++ p) }
    | none =>
      match cache.urlPatterns.find? (fun p => strIncludes (strToLower url0) p) with
      | some p =>
        { block := true, host := some (evalHost parseHostname (strToLower url0)),
          resourceType := some (strToLower resourceType0),
          blockRule := some ("pattern:" ++ p) }
      | none => { block := false }
  else { block := false }

/-! ## Snapshot state and tool actions (src/xd-chrome-tools.js)

The agent context of src/xd-chrome-core.js carries the element index
(lastSnapshot), the current URL, the visited-URL set and the open tab list;
the tools mutate exactly these fields. The live page and the engine calls
are external, so each tool takes an environment record holding the outcome
of every engine call it performs. -/

/-- Element record captured by createSnapshot (lines 38-45): per-snapshot
sequential identifier, best-effort selector, semantic role, truncated label,
and the captured link target (getAttribute href, empty coerced to null). -/
structure ElementRecord where
  id : String
  selector : String
  role : String
  name : String
  href : Option String
deriving Repr, DecidableEq

/-- Context state the tools read and write: lastSnapshot, currentUrl,
visitedUrls and the tab count of ctx.pages. -/
structure ToolState where
  lastSnapshot : Option (List ElementRecord)
  currentUrl : String
  visitedUrls : List String
  pagesCount : Nat
deriving Repr, DecidableEq

/-- Embedding of ctx.addVisitedUrl (src/xd-chrome-core.js line 88): add the
URL to the visited set when it is truthy. Set insertion keeps one copy. -/
def addVisitedUrl (visited : List String) (url : String) : List String :=
  if strTruthy url then
    (if visited.contains url then visited else visited ++ [url])
  else visited

/-- Element lookup shared by click, fill and openLink:
ctx.lastSnapshot?.elements?.find of the requested identifier; none when the
snapshot has been invalidated or the identifier is absent. -/
def findSnapshotItem (st : ToolState) (uid : String) : Option ElementRecord :=
  match st.lastSnapshot with
  | none => none
  | some els => els.find? (fun el => el.id == uid)

/-- Error message raised by click, fill and openLink when the element lookup
comes back empty. -/
def notFoundMsg (uid : String) : String :=
  "Element not found in snapshot: " ++ uid

/-- Outcomes of the four click strategies of the click tool (lines 122-151):
the primary-selector click, the role-plus-name click, the text click, and
the script-level click, together with the message of the script-level
failure. -/
structure ClickEnv where
  selectorClickOk : Bool
  roleClickOk : Bool
  textClickOk : Bool
  jsClickOk : Bool
  jsClickErr : String
deriving Repr, DecidableEq

/-- Success of one numbered strategy in a click environment. -/
def strategySucceeds (env : ClickEnv) : Nat → Bool
  | 1 => env.selectorClickOk
  | 2 => env.roleClickOk
  | 3 => env.textClickOk
  | 4 => env.jsClickOk
  | _ => false

/-- Fallback order the click tool declares for an element: the primary
selector always, the role strategy when role and name are truthy, the text
strategy when the name is truthy, the script-level click always. -/
def clickStrategyOrder (item : ElementRecord) : List Nat :=
  [1] ++ (if strTruthy item.role && strTruthy item.name then [2] else []) ++
    (if strTruthy item.name then [3] else []) ++ [4]

/-- Embedding of the strategy cascade of click (lines 122-151): each catch
swallows the failure and tries the next applicable strategy; the error of
the final strategy is wrapped with the element identifier. Returns the
result (the number of the successful strategy, or the raised error) together
with the list of strategies attempted, in order. -/
def clickResolve (uid : String) (item : ElementRecord) (env : ClickEnv) :
    Except String Nat × List Nat :=
  if env.selectorClickOk then (.ok 1, [1])
  else
    let tried2 := strTruthy item.role && strTruthy item.name
    if tried2 && env.roleClickOk then (.ok 2, [1, 2])
    else
      let att2 := [1] ++ (if tried2 then [2] else [])
      let tried3 := strTruthy item.name
      if tried3 && env.textClickOk then (.ok 3, att2 ++ [3])
      else
        let att3 := att2 ++ (if tried3 then [3] else [])
        if env.jsClickOk then (.ok 4, att3 ++ [4])
        else
          (.error ("All click strategies failed for " ++ uid ++ ": " ++
            env.jsClickErr), att3 ++ [4])

/-- Engine outcomes of the post-click bookkeeping of the click tool
(lines 119-176): the page URL captured before the click, the tab count and
page URL observed after it, and the outcome of the last-resort direct
navigation for link elements. -/
structure ClickPostEnv where
  urlBefore : String
  tabsAfter : Nat
  urlAfterClick : String
  linkGotoOk : Bool
  urlAfterLinkGoto : String
deriving Repr, DecidableEq

/-- Embedding of the click tool (lines 115-177): element lookup, strategy
cascade, new-tab switch, visited-URL bookkeeping, the direct-navigation
fallback for link elements whose URL did not change (its failure is
swallowed), and the final invalidation of the element index. Returns the new
state and the newTabOpened flag. -/
def clickTool (st : ToolState) (env : ClickEnv) (post : ClickPostEnv)
    (uid : String) : Except String (ToolState × Bool) :=
  match findSnapshotItem st uid with
  | none => .error (notFoundMsg uid)
  | some item =>
    match (clickResolve uid item env).1 with
    | .error e => .error e
    | .ok _ =>
      let newTabOpened := st.pagesCount < post.tabsAfter
      let url1 := post.urlAfterClick
      let visited1 := addVisitedUrl st.visitedUrls url1
      let doFallback := url1 == post.urlBefore && item.role == "link" &&
        optTruthy item.href
      if doFallback && post.linkGotoOk then
        .ok ({ lastSnapshot := none, currentUrl := post.urlAfterLinkGoto,
               visitedUrls := addVisitedUrl visited1 post.urlAfterLinkGoto,
               pagesCount := post.tabsAfter }, newTabOpened)
      else
        .ok ({ lastSnapshot := none, currentUrl := url1,
               visitedUrls := visited1, pagesCount := post.tabsAfter },
             newTabOpened)

/-- Engine outcome of the fill tool (lines 183-195): both the stealth typing
path and the direct locator fill path leave the context state untouched, so
a single success flag with the raised message suffices. -/
structure FillEnv where
  fillOk : Bool
  fillErr : String
deriving Repr, DecidableEq

/-- Embedding of the fill tool (lines 183-195): element lookup, then the
fill itself; the context state is returned unchanged together with the
reported text length. -/
def fillTool (st : ToolState) (env : FillEnv) (uid text : String) :
    Except String (ToolState × Nat) :=
  match findSnapshotItem st uid with
  | none => .error (notFoundMsg uid)
  | some _ =>
    if env.fillOk then .ok (st, text.length) else .error env.fillErr

/-- Embedding of the scroll tool (lines 219-232) on the context state: the
page scrolling itself is an engine call; the state effect of a completed
scroll is exactly the invalidation of the element index. -/
def scrollTool (st : ToolState) : ToolState :=
  { st with lastSnapshot := none }

/-- Engine outcomes of the openLink tool (lines 198-216): the in-page href
lookup (null for a missing or falsy href), the URL resolution against the
page URL (none when the URL constructor throws), and the navigation. -/
structure OpenLinkEnv where
  domHref : Option String
  resolveUrl : String → Option String
  resolveErr : String
  gotoOk : Bool
  gotoErr : String
  pageUrlAfter : String

/-- Resolved href of openLink: the captured snapshot href when truthy, else
the in-page lookup result; none when neither is truthy. -/
def resolvedHref (item : ElementRecord) (env : OpenLinkEnv) : Option String :=
  let h := if optTruthy item.href then item.href else env.domHref
  if optTruthy h then h else none

/-- Embedding of the openLink tool (lines 198-216): element lookup, href
resolution, rejection of javascript hrefs, URL resolution, navigation, and
URL bookkeeping. The second component counts the page.goto calls performed,
so that an error outcome with count zero is an error raised with no
navigation attempted. -/
def openLinkTool (st : ToolState) (env : OpenLinkEnv) (uid : String) :
    Except String ToolState × Nat :=
  match findSnapshotItem st uid with
  | none => (.error (notFoundMsg uid), 0)
  | some item =>
    match resolvedHref item env with
    | none => (.error ("Element has no href: " ++ uid), 0)
    | some href =>
      if strStartsWith href "javascript:" then
        (.error "Cannot navigate to javascript: href", 0)
      else
        match env.resolveUrl href with
        | none => (.error env.resolveErr, 0)
        | some _ =>
          if env.gotoOk then
            (.ok { st with
                   currentUrl := env.pageUrlAfter
                   visitedUrls := addVisitedUrl st.visitedUrls
                     env.pageUrlAfter }, 1)
          else (.error env.gotoErr, 1)

/-- Error-message fragment the navigate tool looks for to decide whether a
navigation failure is a proxy tunnel failure (line 85). -/
def TUNNEL_ERR : String := "ERR_TUNNEL_CONNECTION_FAILED"

/-- Engine outcomes of the navigate tool (lines 74-102): the two possible
goto attempts, the presence of ctx.rotateBrowser, the presence of the proxy
manager (which is what makes rotateBrowser of src/xd-chrome-core.js lines
223-230 return true), the page URL after a successful navigation, and the
fresh snapshot taken afterwards. -/
structure NavEnv where
  firstGoto : Except String Unit
  hasRotate : Bool
  hasProxyManager : Bool
  secondGoto : Except String Unit
  pageUrlAfter : String
  freshSnap : List ElementRecord

/-- Context state after a successful navigation (lines 93-101): current URL
updated, URL recorded in the visited history, element index replaced by the
fresh auto-snapshot. The proxy reportSuccess side effect acts on the proxy
manager, not on this state. -/
def navigateSuccess (st : ToolState) (env : NavEnv) : ToolState :=
  { st with
    currentUrl := env.pageUrlAfter
    visitedUrls := addVisitedUrl st.visitedUrls env.pageUrlAfter
    lastSnapshot := some env.freshSnap }

/-- Outcome of the navigate tool: the result together with the number of
goto attempts and of rotateBrowser calls performed. -/
structure NavOutcome where
  result : Except String ToolState
  gotoCalls : Nat
  rotateCalls : Nat

/-- Embedding of the navigate tool (lines 74-102): attempt the navigation;
on a failure whose message carries the tunnel-failure condition, and when
rotateBrowser is present, rotate and retry exactly once if the rotation
succeeded (it succeeds exactly when a proxy manager is attached), otherwise
rethrow the original error; any other failure propagates untouched. -/
def navigateTool (st : ToolState) (env : NavEnv) : NavOutcome :=
  match env.firstGoto with
  | .ok _ =>
    { result := .ok (navigateSuccess st env), gotoCalls := 1, rotateCalls := 0 }
  | .error msg =>
    if strIncludes msg TUNNEL_ERR && env.hasRotate then
      if env.hasProxyManager then
        match env.secondGoto with
        | .ok _ =>
          { result := .ok (navigateSuccess st env), gotoCalls := 2,
            rotateCalls := 1 }
        | .error e =>
          { result := .error e, gotoCalls := 2, rotateCalls := 1 }
      else
        { result := .error msg, gotoCalls := 1, rotateCalls := 1 }
    else
      { result := .error msg, gotoCalls := 1, rotateCalls := 0 }

/-! ## Helper lemmas -/

theorem strTruthy_iff {s : String} : strTruthy s = true ↔ s ≠ "" := by
  simp [strTruthy]

theorem strTruthy_false_iff {s : String} : strTruthy s = false ↔ s = "" := by
  simp [strTruthy]

theorem hostMatches_truthy_left {h d : String}
    (hm : hostMatchesDomain h d = true) : strTruthy h = true := by
  by_cases hh : h = ""
  · subst hh
    simp [hostMatchesDomain, normalizeDomain, strTrim, strToLower,
      strStartsWith, listIsPrefixOf, strTruthy] at hm
  · exact strTruthy_iff.mpr hh

/-! ## Claim C1 -/

/-- C1: reportFailure bans an endpoint exactly when its windowed failure
count (after recording the current failure and pruning the 1-hour window)
reaches the threshold of 3; the ban then expires 12 hours after the ban
time and the failure history is cleared; below the threshold no ban is
created; reportSuccess clears the failure history entirely. -/
theorem claim_C1 (now : Nat) (st : EndpointState) :
    ((reportFailure now st).2 = true ↔
      3 ≤ (pruneWindow now (st.failures ++ [now])).length)
  ∧ ((reportFailure now st).2 = true →
      (reportFailure now st).1.ban =
        some { bannedAt := now, expiresAt := now + 12 * 60 * 60 * 1000,
               failures := (pruneWindow now (st.failures ++ [now])).length }
      ∧ (reportFailure now st).1.failures = [])
  ∧ ((reportFailure now st).2 = false →
      (reportFailure now st).1.ban = st.ban
      ∧ (reportFailure now st).1.failures = pruneWindow now (st.failures ++ [now]))
  ∧ reportSuccess st = { st with failures := [] } := by
  by_cases h : (pruneWindow now (st.failures ++ [now])).length < 3
  · have hr : reportFailure now st =
        ({ st with failures := pruneWindow now (st.failures ++ [now]) }, false) := by
      unfold reportFailure
      simp [FAIL_THRESHOLD, h]
    rw [hr]
    refine ⟨by simp; omega, by simp, fun _ => ⟨rfl, rfl⟩, rfl⟩
  · have hr : reportFailure now st =
        ({ failures := [],
           ban := some { bannedAt := now, expiresAt := now + 12 * 60 * 60 * 1000,
                         failures := (pruneWindow now (st.failures ++ [now])).length } },
         true) := by
      unfold reportFailure
      simp [FAIL_THRESHOLD, h, BAN_DURATION_MS]
    rw [hr]
    refine ⟨by simp; omega, fun _ => ⟨rfl, rfl⟩, by simp, rfl⟩

/-- Witness for C1: from an endpoint with two recent failures, a third
failure at time 2 triggers the ban and clears the history. -/
theorem claim_C1_witness :
    (reportFailure 2 ⟨[0, 1], none⟩).2 = true
  ∧ (reportFailure 2 ⟨[0, 1], none⟩).1.failures = [] := by
  obtain ⟨h1, h2, _, _⟩ := claim_C1 2 ⟨[0, 1], none⟩
  have hb : (reportFailure 2 ⟨[0, 1], none⟩).2 = true := h1.mpr (by decide)
  exact ⟨hb, (h2 hb).2⟩

/-! ## Claim C2 -/

/-- C2 counterexample: a pool holding the single unbanned endpoint address
x, which the URL constructor rejects, makes getNextProxy return null even
though an unbanned endpoint exists, contradicting the claim that null is
returned only when no unbanned endpoint exists. -/
theorem claim_C2_counterexample :
    (getNextProxy 0 urlParseStub ⟨["x"], 0, none, [], 0⟩).1 = none
  ∧ "x" ∈ (["x"] : List String)
  ∧ isBanned 0 [] "x" = false := by
  refine ⟨by rfl, by decide, by rfl⟩

/-- C2 (amended): getNextProxy never returns a parsed endpoint whose ban has
an expiry still in the future, and it returns null exactly when either no
unbanned endpoint exists or the selected unbanned endpoint address fails to
parse as a proxy URL. -/
theorem claim_C2 (now : Nat) (parseUrl : String → Option ProxyParts)
    (st : PoolState) :
    (∀ p, (getNextProxy now parseUrl st).1 = some p →
      p.raw ∈ st.allUrls ∧ isBanned now st.banned p.raw = false)
  ∧ ((getNextProxy now parseUrl st).1 = none ↔
      (availableUrls now st = [] ∨ parseUrl (selectedUrl now st) = none))
  ∧ (availableUrls now st = [] ↔
      ∀ u ∈ st.allUrls, isBanned now st.banned u = true) := by
  have hfilter : availableUrls now st = [] ↔
      ∀ u ∈ st.allUrls, isBanned now st.banned u = true := by
    unfold availableUrls
    rw [List.filter_eq_nil_iff]
    constructor
    · intro hall u hu
      simpa using hall u hu
    · intro hall u hu
      simpa using hall u hu
  by_cases hlen : (availableUrls now st).length = 0
  · have hnil : availableUrls now st = [] := List.length_eq_zero.mp hlen
    refine ⟨?_, ?_, hfilter⟩
    · intro p hp
      unfold getNextProxy at hp
      simp [hlen] at hp
    · unfold getNextProxy
      simp [hlen, hnil]
  · have hpos : 0 < (availableUrls now st).length := Nat.pos_of_ne_zero hlen
    have hidx : nextIndex now st < (availableUrls now st).length :=
      Nat.mod_lt _ hpos
    have hget : selectedUrl now st = (availableUrls now st)[nextIndex now st] := by
      unfold selectedUrl
      rw [List.getD_eq_getElem?_getD, List.getElem?_eq_getElem hidx]
      rfl
    have hmem : selectedUrl now st ∈ availableUrls now st := by
      rw [hget]
      exact List.getElem_mem hidx
    have hmem' : selectedUrl now st ∈ st.allUrls ∧
        isBanned now st.banned (selectedUrl now st) = false := by
      unfold availableUrls at hmem
      have := List.mem_filter.mp hmem
      refine ⟨this.1, ?_⟩
      simpa using this.2
    have hres : (getNextProxy now parseUrl st).1 =
        parseProxy parseUrl (selectedUrl now st) := by
      unfold getNextProxy
      simp [hlen]
    refine ⟨?_, ?_, hfilter⟩
    · intro p hp
      rw [hres] at hp
      unfold parseProxy at hp
      cases hpu : parseUrl (selectedUrl now st) with
      | none => rw [hpu] at hp; exact absurd hp (by simp)
      | some parts =>
        rw [hpu] at hp
        simp only [Option.some.injEq] at hp
        rw [← hp]
        exact hmem'
    · rw [hres]
      unfold parseProxy
      cases hpu : parseUrl (selectedUrl now st) with
      | none => simp
      | some parts =>
        simp only [Option.some.injEq]
        constructor
        · intro h
          exact absurd h (by simp)
        · intro h
          rcases h with h | h
          · exact absurd h (fun hh => hlen (by rw [hh]; rfl))
          · exact absurd h (by simp)

/-- Witness for C2: on a one-endpoint pool with a parseable address,
getNextProxy returns a parsed endpoint, which the amended theorem places in
the pool and certifies as unbanned. -/
theorem claim_C2_witness :
    "http://a:1" ∈ (["http://a:1"] : List String)
  ∧ isBanned 0 [] "http://a:1" = false := by
  have h := (claim_C2 0 urlParseStub
      ⟨["http://a:1"], 0, none, [], 0⟩).1
    ⟨"http://a:1", "http://a:1", "", ""⟩ (by rfl)
  exact h

/-! ## Claim C9 -/

theorem dedup_go_nodup (l : List String) : ∀ acc : List String, acc.Nodup →
    (l.foldl (fun acc v => if acc.contains v then acc else acc ++ [v]) acc).Nodup := by
  induction l with
  | nil =>
    intro acc h
    simpa using h
  | cons x xs ih =>
    intro acc h
    simp only [List.foldl_cons]
    by_cases hc : acc.contains x
    · rw [if_pos hc]
      exact ih acc h
    · rw [if_neg hc]
      apply ih
      rw [List.nodup_append]
      refine ⟨h, by simp, ?_⟩
      intro a ha hb
      simp only [List.mem_singleton] at hb
      subst hb
      exact hc (List.elem_iff.mpr ha)

theorem dedup_go_mem (l : List String) : ∀ (acc : List String) (a : String),
    (a ∈ l.foldl (fun acc v => if acc.contains v then acc else acc ++ [v]) acc ↔
      a ∈ acc ∨ a ∈ l) := by
  induction l with
  | nil => simp
  | cons x xs ih =>
    intro acc a
    simp only [List.foldl_cons]
    by_cases hc : acc.contains x
    · rw [if_pos hc, ih]
      have hx : x ∈ acc := List.elem_iff.mp hc
      constructor
      · rintro (h | h)
        · exact Or.inl h
        · exact Or.inr (List.mem_cons_of_mem _ h)
      · rintro (h | h)
        · exact Or.inl h
        · rcases List.mem_cons.mp h with h | h
          · exact Or.inl (h ▸ hx)
          · exact Or.inr h
    · rw [if_neg hc, ih]
      simp only [List.mem_append, List.mem_singleton, List.mem_cons]
      tauto

theorem dedupFirst_nodup (l : List String) : (dedupFirst l).Nodup :=
  dedup_go_nodup l [] (by simp)

theorem mem_dedupFirst (l : List String) (a : String) :
    a ∈ dedupFirst l ↔ a ∈ l := by
  unfold dedupFirst
  rw [dedup_go_mem]
  simp

theorem mem_loadUrls (cfgUrls : List String) (u : String) :
    u ∈ loadUrls cfgUrls ↔ u ∈ cfgUrls.map strTrim ∧ u ≠ "" := by
  unfold loadUrls
  rw [mem_dedupFirst, List.mem_filter, strTruthy_iff]

theorem lswap_perm {α : Type} [DecidableEq α] (l : List α) (i j : Nat) :
    (lswap l i j).Perm l := by
  cases hI : l[i]? with
  | none =>
    have : lswap l i j = l := by
      unfold lswap
      rw [hI]
    rw [this]
  | some x =>
    cases hJ : l[j]? with
    | none =>
      have : lswap l i j = l := by
        unfold lswap
        rw [hI, hJ]
      rw [this]
    | some y =>
      obtain ⟨hi, hxi⟩ := List.getElem?_eq_some.mp hI
      obtain ⟨hj, hyj⟩ := List.getElem?_eq_some.mp hJ
      have hls : lswap l i j = (l.set i y).set j x := by
        unfold lswap
        rw [hI, hJ]
      rw [hls, List.perm_iff_count]
      intro b
      have hjlen : j < (l.set i y).length := by simpa using hj
      rw [List.count_set _ _ _ _ hjlen, List.count_set _ _ _ _ hi]
      have hgs : (l.set i y)[j] = y := by
        rw [List.getElem_set]
        split
        · rfl
        · exact hyj
      rw [hgs]
      have hxb : (if (x == b) = true then 1 else 0) ≤ l.count b := by
        split
        · rename_i hbeq
          have hxb' : x = b := by simpa using hbeq
          have : b ∈ l := by
            rw [← hxb', ← hxi]
            exact List.getElem_mem hi
          exact List.count_pos_iff.mpr this
        · exact Nat.zero_le _
      have hib : l[i] = x := hxi
      rw [hib]
      set a1 := (if (x == b) = true then 1 else 0) with ha1
      set a2 := (if (y == b) = true then 1 else 0) with ha2
      omega

theorem fyAux_perm (rand : Nat → Nat) :
    ∀ (n : Nat) (l : List String), (fyAux rand n l).Perm l := by
  intro n
  induction n with
  | zero => intro l; exact List.Perm.refl l
  | succ i ih =>
    intro l
    exact (ih (lswap l (i + 1) (rand (i + 1) % (i + 2)))).trans (lswap_perm _ _ _)

theorem shuffleUrls_perm (rand : Nat → Nat) (l : List String) :
    (shuffleUrls rand l).Perm l :=
  fyAux_perm rand (l.length - 1) l

/-- C9 counterexample: the constructor keeps the malformed address x (which
the URL constructor rejects), so the pool can contain an address that fails
to parse as a proxy URL, contradicting the claim. -/
theorem claim_C9_counterexample :
    poolInit (fun _ => 0) ["x"] = ["x"]
  ∧ urlParseStub "x" = none
  ∧ parseProxy urlParseStub "x" = none := by
  refine ⟨by rfl, by rfl, by rfl⟩

/-- C9 (amended): pool construction trims, deduplicates and discards empty
entries, so the pool holds no duplicates and no empty strings, and its
membership is exactly the nonempty trimmed configured addresses; addresses
that fail to parse as proxy URLs are retained (their parse failure only
surfaces when the endpoint is selected); the order is randomized once by a
Fisher-Yates shuffle, a permutation of the deduplicated list. -/
theorem claim_C9 (cfgUrls : List String) (rand : Nat → Nat) :
    (poolInit rand cfgUrls).Perm (loadUrls cfgUrls)
  ∧ (poolInit rand cfgUrls).Nodup
  ∧ "" ∉ poolInit rand cfgUrls
  ∧ (∀ u, u ∈ poolInit rand cfgUrls ↔ u ∈ cfgUrls.map strTrim ∧ u ≠ "") := by
  have hperm : (poolInit rand cfgUrls).Perm (loadUrls cfgUrls) :=
    shuffleUrls_perm rand (loadUrls cfgUrls)
  have hnd : (loadUrls cfgUrls).Nodup := dedupFirst_nodup _
  refine ⟨hperm, hperm.symm.nodup hnd, ?_, ?_⟩
  · intro h
    have h' := (hperm.mem_iff.mp h)
    rw [mem_loadUrls] at h'
    exact h'.2 rfl
  · intro u
    rw [hperm.mem_iff, mem_loadUrls]

/-! ## Claim C8 -/

theorem lookup_isSome_iff (m : List (String × Nat)) (k : String) :
    (m.lookup k).isSome = true ↔ k ∈ m.map Prod.fst := by
  induction m with
  | nil => simp [List.lookup]
  | cons p t ih =>
    obtain ⟨a, b⟩ := p
    rw [List.lookup_cons]
    by_cases h : k = a
    · subst h
      simp
    · have hb : (k == a) = false := by simpa using h
      simp [hb, h, ih]

theorem lookup_filter_ne (m : List (String × Nat)) (k key : String)
    (h : k ≠ key) :
    (m.filter (fun p => p.1 != key)).lookup k = m.lookup k := by
  induction m with
  | nil => simp
  | cons p t ih =>
    obtain ⟨a, b⟩ := p
    by_cases ha : a = key
    · subst ha
      have hk : (k == a) = false := by simpa using h
      simp only [List.filter_cons]
      simp only [bne_self_eq_false]
      rw [List.lookup_cons]
      simp [hk, ih]
    · have hfil : List.filter (fun p => p.1 != key) ((a, b) :: t) =
          (a, b) :: List.filter (fun p => p.1 != key) t := by
        simp [List.filter_cons, ha]
      rw [hfil, List.lookup_cons, List.lookup_cons]
      cases hke : (k == a) <;> simp [ih]

theorem length_filter_ne_of_mem (m : List (String × Nat)) (key : String)
    (hwf : (m.map Prod.fst).Nodup) (hs : (m.lookup key).isSome = true) :
    (m.filter (fun p => p.1 != key)).length + 1 = m.length := by
  induction m with
  | nil => simp [List.lookup] at hs
  | cons p t ih =>
    obtain ⟨a, b⟩ := p
    rw [List.map_cons, List.nodup_cons] at hwf
    by_cases hk : a = key
    · subst hk
      have hkeep : t.filter (fun q => q.1 != a) = t := by
        apply List.filter_eq_self.mpr
        intro q hq
        have hqmem : q.1 ∈ t.map Prod.fst := List.mem_map.mpr ⟨q, hq, rfl⟩
        have : q.1 ≠ a := fun hh => hwf.1 (hh ▸ hqmem)
        simpa using this
      have hfil : List.filter (fun p => p.1 != a) ((a, b) :: t) =
          List.filter (fun p => p.1 != a) t := by
        simp [List.filter_cons]
      rw [hfil, hkeep]
      simp
    · have hs' : (t.lookup key).isSome = true := by
        rw [List.lookup_cons] at hs
        have hb : (key == a) = false := by
          simp only [beq_eq_false_iff_ne]
          exact fun hh => hk hh.symm
        rw [hb] at hs
        exact hs
      have hfil : List.filter (fun p => p.1 != key) ((a, b) :: t) =
          (a, b) :: List.filter (fun p => p.1 != key) t := by
        simp [List.filter_cons, hk]
      rw [hfil]
      simp only [List.length_cons]
      rw [← ih hwf.2 hs']

theorem mem_keys_filter_ne (m : List (String × Nat)) (key a : String) :
    a ∈ (m.filter (fun p => p.1 != key)).map Prod.fst ↔
      a ∈ m.map Prod.fst ∧ a ≠ key := by
  simp only [List.mem_map, List.mem_filter]
  constructor
  · rintro ⟨p, ⟨hp, hne⟩, rfl⟩
    exact ⟨⟨p, hp, rfl⟩, by simpa using hne⟩
  · rintro ⟨⟨p, hp, rfl⟩, hne⟩
    exact ⟨p, ⟨hp, by simpa using hne⟩, rfl⟩

theorem lookup_singleton_ne (k key : String) (v : Nat) (h : k ≠ key) :
    List.lookup k [(key, v)] = none := by
  rw [List.lookup_cons]
  have : (k == key) = false := by simpa using h
  simp [this]

/-- C8: the blocked-host LRU tracker with capacity 500 never exceeds 500
entries; incrementing a present host keeps the key set (no eviction), keeps
the size, moves the host to the most-recent end with its count bumped by
one, and leaves every other count unchanged; inserting a new host at
capacity evicts exactly the least-recently-touched entry (the front of the
recency order) and preserves the counts of all remaining hosts. -/
theorem claim_C8 (m : List (String × Nat)) (key : String) (hwf : wfLru m) :
    (m.length ≤ 500 → (lruInc 500 m key).length ≤ 500)
  ∧ ((m.lookup key).isSome = true →
      (∀ a, a ∈ (lruInc 500 m key).map Prod.fst ↔ a ∈ m.map Prod.fst)
    ∧ (lruInc 500 m key).length = m.length
    ∧ (lruInc 500 m key).getLast? = some (key, (m.lookup key).getD 0 + 1)
    ∧ (∀ k, k ≠ key → (lruInc 500 m key).lookup k = m.lookup k))
  ∧ ((m.lookup key).isSome = false → m.length = 500 →
      ∃ evicted rest, m = evicted :: rest
    ∧ lruInc 500 m key = rest ++ [(key, 1)]
    ∧ (∀ k, k ≠ key → k ≠ evicted.1 →
        (lruInc 500 m key).lookup k = m.lookup k)) := by
  unfold wfLru at hwf
  by_cases hs : (m.lookup key).isSome = true
  · have hlr : lruInc 500 m key =
        (m.filter (fun p => p.1 != key)) ++ [(key, (m.lookup key).getD 0 + 1)] := by
      unfold lruInc
      rw [if_pos hs]
    have hflen := length_filter_ne_of_mem m key hwf hs
    have hkey : key ∈ m.map Prod.fst := (lookup_isSome_iff m key).mp hs
    refine ⟨?_, ?_, ?_⟩
    · intro hle
      rw [hlr, List.length_append]
      simp only [List.length_singleton]
      omega
    · intro _
      refine ⟨?_, ?_, ?_, ?_⟩
      · intro a
        rw [hlr]
        simp only [List.map_append, List.mem_append, mem_keys_filter_ne]
        constructor
        · rintro (⟨ha, _⟩ | ha)
          · exact ha
          · simp only [List.map_cons, List.map_nil, List.mem_singleton] at ha
            exact ha ▸ hkey
        · intro ha
          by_cases hak : a = key
          · exact Or.inr (by simp [hak])
          · exact Or.inl ⟨ha, hak⟩
      · rw [hlr, List.length_append]
        simp only [List.length_singleton]
        omega
      · rw [hlr, List.getLast?_append]
        rfl
      · intro k hk
        rw [hlr, List.lookup_append, lookup_filter_ne m k key hk,
          lookup_singleton_ne k key _ hk]
        cases m.lookup k <;> rfl
    · intro hs'
      rw [hs] at hs'
      exact absurd hs' (by simp)
  · have hs0 : (m.lookup key).isSome = false := by
      cases hb : (m.lookup key).isSome
      · rfl
      · exact absurd hb hs
    have hnext : (m.lookup key).getD 0 + 1 = 1 := by
      cases hl : m.lookup key with
      | none => rfl
      | some v => rw [hl] at hs0; simp at hs0
    refine ⟨?_, ?_, ?_⟩
    · intro hle
      unfold lruInc
      rw [if_neg (by rw [hs0]; simp)]
      by_cases hcap : 500 ≤ m.length
      · rw [if_pos hcap, List.length_append, List.length_drop]
        simp only [List.length_singleton]
        omega
      · rw [if_neg hcap, List.length_append]
        simp only [List.length_singleton]
        omega
    · intro hcontra
      rw [hs0] at hcontra
      exact absurd hcontra (by simp)
    · intro _ hlen
      obtain ⟨evicted, rest, hm⟩ : ∃ e r, m = e :: r := by
        cases m with
        | nil => simp at hlen
        | cons e r => exact ⟨e, r, rfl⟩
      have hlr : lruInc 500 m key = rest ++ [(key, 1)] := by
        unfold lruInc
        rw [if_neg (by rw [hs0]; simp), if_pos (by omega), hnext, hm]
        rfl
      refine ⟨evicted, rest, hm, hlr, ?_⟩
      intro k hk hke
      rw [hlr, List.lookup_append, lookup_singleton_ne k key _ hk, hm]
      obtain ⟨a, b⟩ := evicted
      rw [List.lookup_cons]
      have : (k == a) = false := by simpa using hke
      rw [this]
      cases rest.lookup k <;> rfl

/-- Witness for C8: on a two-entry tracker, bumping the host a keeps the
size at two, moves a to the most-recent end with count three, and leaves
the count of b untouched. -/
theorem claim_C8_witness :
    (lruInc 500 [("a", 2), ("b", 7)] "a").length = 2
  ∧ (lruInc 500 [("a", 2), ("b", 7)] "a").getLast? = some ("a", 3)
  ∧ (lruInc 500 [("a", 2), ("b", 7)] "a").lookup "b" =
      List.lookup "b" [("a", 2), ("b", 7)] := by
  obtain ⟨_, h2, _⟩ := claim_C8 [("a", 2), ("b", 7)] "a" (by unfold wfLru; decide)
  obtain ⟨_, hlen, hlast, hpres⟩ := h2 (by decide)
  exact ⟨hlen, hlast, hpres "b" (by decide)⟩

/-! ## Claims C5 and C6 -/

/-- C5: a request whose URL parses to a host matching (exactly or as a
subdomain of) some allowlisted domain is never blocked, regardless of the
blocked resource types, the domain-block patterns and the URL substring
patterns of the active cache. -/
theorem claim_C5 (parseHostname : String → Option String) (cache : FilterCache)
    (url resourceType : String)
    (h : ∃ d ∈ cache.allowlistDomains,
      hostMatchesDomain (evalHost parseHostname (strToLower url)) d = true) :
    (evaluate parseHostname cache url resourceType).block = false := by
  obtain ⟨d, hd, hm⟩ := h
  have htr : strTruthy (evalHost parseHostname (strToLower url)) = true :=
    hostMatches_truthy_left hm
  have hany : cache.allowlistDomains.any
      (fun d => hostMatchesDomain (evalHost parseHostname (strToLower url)) d) = true :=
    List.any_eq_true.mpr ⟨d, hd, hm⟩
  unfold evaluate
  split
  · rfl
  · rw [if_pos (by rw [htr, hany]; rfl)]

/-- Witness for C5: with example.com allowlisted, a media request to
cdn.example.com is allowed even though its resource type is in the blocked
set and its domain is in the domain-block patterns. -/
theorem claim_C5_witness :
    (evaluate (fun u => if u = "https://cdn.example.com/a.mp4" then
        some "cdn.example.com" else none)
      { enabled := true, mode := "balanced", blockedTypes := ["media"],
        domainPatterns := ["example.com"], urlPatterns := [],
        allowlistDomains := ["example.com"] }
      "https://cdn.example.com/a.mp4" "media").block = false := by
  apply claim_C5
  exact ⟨"example.com", by decide, by decide⟩

/-- C6: a document request can be blocked only through the blocked
resource-category set of the active mode, never through a domain pattern or
a URL substring pattern; with the default per-mode category lists (media for
balanced; image, media, font for aggressive) a document request is never
blocked, whatever the mode, the patterns and the allowlist. -/
theorem claim_C6 (parseHostname : String → Option String) (cache : FilterCache)
    (url resourceType : String) (hdoc : strToLower resourceType = "document") :
    ((evaluate parseHostname cache url resourceType).block = true →
      cache.blockedTypes.contains "document" = true)
  ∧ (∀ (enabled : Bool) (mode : String) (patterns allow : List String),
      (evaluate parseHostname
        (buildCache
          { enabled := enabled
            mode := mode
            blockResourceTypesBalanced := ["media"]
            blockResourceTypesAggressive := ["image", "media", "font"]
            blockUrlPatterns := patterns
            allowlistDomains := allow })
        url resourceType).block = false) := by
  constructor
  · intro hb
    unfold evaluate at hb
    rw [hdoc] at hb
    split at hb
    · simp at hb
    · split at hb
      · simp at hb
      · split at hb
        · rename_i hcond
          exact hcond
        · rw [if_neg (by simp)] at hb
          simp at hb
  · intro enabled mode patterns allow
    have hcases : normalizeMode mode = "aggressive" ∨
        normalizeMode mode = "balanced" := by
      unfold normalizeMode
      by_cases hm : strToLower mode = "aggressive"
      · left
        rw [if_pos hm]
      · right
        rw [if_neg hm]
    have hbt : (buildCache
        { enabled := enabled
          mode := mode
          blockResourceTypesBalanced := ["media"]
          blockResourceTypesAggressive := ["image", "media", "font"]
          blockUrlPatterns := patterns
          allowlistDomains := allow }).blockedTypes.contains "document" = false := by
      rcases hcases with hmode | hmode <;>
        · unfold buildCache
          rw [hmode]
          rfl
    unfold evaluate
    rw [hdoc]
    split
    · rfl
    · split
      · rfl
      · rw [if_neg (by rw [hbt]; simp), if_neg (by simp)]

/-- Witness for C6: with the default resource-category lists, a balanced
filter whose domain patterns contain the very domain of the request still
does not block a document request to it. -/
theorem claim_C6_witness :
    (evaluate (fun _ => some "ads.example.com")
      (buildCache
        { enabled := true
          mode := "balanced"
          blockResourceTypesBalanced := ["media"]
          blockResourceTypesAggressive := ["image", "media", "font"]
          blockUrlPatterns := ["example.com"]
          allowlistDomains := [] })
      "https://ads.example.com/" "document").block = false :=
  (claim_C6 (fun _ => some "ads.example.com")
    { enabled := true, mode := "balanced", blockedTypes := [],
      domainPatterns := [], urlPatterns := [], allowlistDomains := [] }
    "https://ads.example.com/" "document" (by decide)).2
    true "balanced" ["example.com"] []

/-! ## Claim C7 -/

theorem mem_addVisitedUrl (v : List String) (u : String) (hu : u ≠ "") :
    u ∈ addVisitedUrl v u := by
  unfold addVisitedUrl
  rw [if_pos (strTruthy_iff.mpr hu)]
  by_cases hc : v.contains u
  · rw [if_pos hc]
    exact List.elem_iff.mp hc
  · rw [if_neg hc]
    exact List.mem_append_right _ (List.mem_singleton.mpr rfl)

theorem navigateTool_result_ok (st : ToolState) (env : NavEnv) (st2 : ToolState)
    (h : (navigateTool st env).result = .ok st2) : st2 = navigateSuccess st env := by
  unfold navigateTool at h
  cases hf : env.firstGoto with
  | ok u =>
    rw [hf] at h
    simp at h
    exact h.symm
  | error msg =>
    rw [hf] at h
    by_cases ht : (strIncludes msg TUNNEL_ERR && env.hasRotate) = true
    · by_cases hp : env.hasProxyManager = true
      · cases hs : env.secondGoto with
        | ok u =>
          rw [hs] at h
          simp [ht, hp] at h
          exact h.symm
        | error e =>
          rw [hs] at h
          simp [ht, hp] at h
      · simp [ht, hp] at h
    · simp [ht] at h

/-- C7: a successful first navigation attempt yields exactly one goto and no
rotation; a first failure carrying the tunnel-failure condition, with
rotation present and a proxy manager attached, performs exactly one rotation
and one retry whose outcome (success or error) becomes the result; a failure
without the tunnel condition propagates with no retry and no rotation; and
every successful outcome updates the current URL, records it in the visited
history, and installs the fresh element index. -/
theorem claim_C7 (st : ToolState) (env : NavEnv) :
    (env.firstGoto = .ok () →
      navigateTool st env =
        { result := .ok (navigateSuccess st env), gotoCalls := 1, rotateCalls := 0 })
  ∧ (∀ msg, env.firstGoto = .error msg →
      strIncludes msg TUNNEL_ERR = true → env.hasRotate = true →
      env.hasProxyManager = true →
        (navigateTool st env).gotoCalls = 2
      ∧ (navigateTool st env).rotateCalls = 1
      ∧ (env.secondGoto = .ok () →
          (navigateTool st env).result = .ok (navigateSuccess st env))
      ∧ (∀ e, env.secondGoto = .error e →
          (navigateTool st env).result = .error e))
  ∧ (∀ msg, env.firstGoto = .error msg → strIncludes msg TUNNEL_ERR = false →
      navigateTool st env =
        { result := .error msg, gotoCalls := 1, rotateCalls := 0 })
  ∧ (∀ st2, (navigateTool st env).result = .ok st2 →
      st2 = navigateSuccess st env
    ∧ st2.currentUrl = env.pageUrlAfter
    ∧ st2.lastSnapshot = some env.freshSnap
    ∧ (env.pageUrlAfter ≠ "" → env.pageUrlAfter ∈ st2.visitedUrls)) := by
  refine ⟨?_, ?_, ?_, ?_⟩
  · intro hok
    unfold navigateTool
    rw [hok]
  · intro msg hmsg ht hr hp
    have hcond : (strIncludes msg TUNNEL_ERR && env.hasRotate) = true := by
      rw [ht, hr]
      rfl
    refine ⟨?_, ?_, ?_, ?_⟩
    · unfold navigateTool
      rw [hmsg]
      cases hs : env.secondGoto <;> simp [hcond, hp]
    · unfold navigateTool
      rw [hmsg]
      cases hs : env.secondGoto <;> simp [hcond, hp]
    · intro hs
      unfold navigateTool
      rw [hmsg]
      simp [hcond, hp, hs]
    · intro e he
      unfold navigateTool
      rw [hmsg]
      simp [hcond, hp, he]
  · intro msg hmsg hno
    unfold navigateTool
    rw [hmsg]
    simp [hno]
  · intro st2 hres
    have hsucc := navigateTool_result_ok st env st2 hres
    subst hsucc
    refine ⟨rfl, rfl, rfl, ?_⟩
    intro hne
    exact mem_addVisitedUrl st.visitedUrls env.pageUrlAfter hne

/-- Witness for C7: a tunnel-failure message on the first attempt with a
proxy manager attached leads to one rotation and a successful retried
navigation. -/
theorem claim_C7_witness :
    (navigateTool ⟨none, "about:blank", ["about:blank"], 1⟩
      ⟨.error "page.goto: net::ERR_TUNNEL_CONNECTION_FAILED at https://x/",
        true, true, .ok (), "https://x/", []⟩).gotoCalls = 2
  ∧ (navigateTool ⟨none, "about:blank", ["about:blank"], 1⟩
      ⟨.error "page.goto: net::ERR_TUNNEL_CONNECTION_FAILED at https://x/",
        true, true, .ok (), "https://x/", []⟩).rotateCalls = 1 := by
  obtain ⟨_, h2, _, _⟩ := claim_C7 ⟨none, "about:blank", ["about:blank"], 1⟩
    ⟨.error "page.goto: net::ERR_TUNNEL_CONNECTION_FAILED at https://x/",
      true, true, .ok (), "https://x/", []⟩
  obtain ⟨hg, hr, _, _⟩ := h2 "page.goto: net::ERR_TUNNEL_CONNECTION_FAILED at https://x/"
    rfl (by decide) rfl rfl
  exact ⟨hg, hr⟩

/-! ## Claim C10 -/

/-- C10: when the resolved href of the element (captured in the snapshot, or
looked up in the live page when the snapshot carries none) begins with
javascript:, openLink raises an error without performing any navigation;
when no href resolves at all it raises a no-href error, likewise without
navigating; a missing identifier raises the not-found error. -/
theorem claim_C10 (st : ToolState) (env : OpenLinkEnv) (uid : String)
    (item : ElementRecord) (hfind : findSnapshotItem st uid = some item) :
    (∀ href, resolvedHref item env = some href →
      strStartsWith href "javascript:" = true →
        openLinkTool st env uid =
          (.error "Cannot navigate to javascript: href", 0))
  ∧ (resolvedHref item env = none →
      openLinkTool st env uid = (.error ("Element has no href: " ++ uid), 0)) := by
  constructor
  · intro href hres hjs
    unfold openLinkTool
    rw [hfind]
    simp [hres, hjs]
  · intro hres
    unfold openLinkTool
    rw [hfind]
    simp [hres]

/-- Witness for C10: an element whose captured href is a javascript: URL
makes openLink fail with the javascript-href error and zero goto calls. -/
theorem claim_C10_witness :
    openLinkTool
      ⟨some [⟨"el_0", "#a", "link", "Go", some "javascript:void(0)"⟩],
        "https://a/", ["about:blank"], 1⟩
      ⟨none, fun _ => none, "", true, "", "https://a/"⟩ "el_0" =
      (.error "Cannot navigate to javascript: href", 0) := by
  exact (claim_C10
    ⟨some [⟨"el_0", "#a", "link", "Go", some "javascript:void(0)"⟩],
      "https://a/", ["about:blank"], 1⟩
    ⟨none, fun _ => none, "", true, "", "https://a/"⟩ "el_0"
    ⟨"el_0", "#a", "link", "Go", some "javascript:void(0)"⟩ rfl).1
    "javascript:void(0)" rfl (by decide)

/-! ## Claim C4 -/

/-- C4: the click cascade attempts strategies in exactly the declared order
(selector, then role-plus-label when both are present, then text when the
label is present, then the script-level click): the attempted list is a
nonempty prefix of that order, every attempt before the last one failed, a
success returns the last attempted strategy, and an error occurs only after
every applicable strategy has been attempted and failed, with the error
message reporting the original element identifier. -/
theorem claim_C4 (uid : String) (item : ElementRecord) (env : ClickEnv) :
    (clickResolve uid item env).2 ≠ []
  ∧ (clickResolve uid item env).2 =
      (clickStrategyOrder item).take (clickResolve uid item env).2.length
  ∧ (∀ k ∈ (clickResolve uid item env).2.dropLast,
      strategySucceeds env k = false)
  ∧ (∀ n, (clickResolve uid item env).1 = .ok n →
      (clickResolve uid item env).2.getLast? = some n
    ∧ strategySucceeds env n = true)
  ∧ (∀ e, (clickResolve uid item env).1 = .error e →
      (clickResolve uid item env).2 = clickStrategyOrder item
    ∧ (∀ k ∈ clickStrategyOrder item, strategySucceeds env k = false)
    ∧ e = "All click strategies failed for " ++ uid ++ ": " ++ env.jsClickErr) := by
  cases h1 : env.selectorClickOk <;> cases h2 : env.roleClickOk <;>
    cases h3 : env.textClickOk <;> cases h4 : env.jsClickOk <;>
    cases hr : strTruthy item.role <;> cases hn : strTruthy item.name <;>
    simp_all [clickResolve, clickStrategyOrder, strategySucceeds]

/-- Witness for C4: with every strategy failing on a fully-labelled element,
the cascade attempts all four strategies and raises the wrapped error that
names the element identifier. -/
theorem claim_C4_witness :
    (clickResolve "el_2" ⟨"el_2", "#b", "button", "Go", none⟩
      ⟨false, false, false, false, "boom"⟩).2 =
        clickStrategyOrder ⟨"el_2", "#b", "button", "Go", none⟩
  ∧ "All click strategies failed for el_2: boom" =
      "All click strategies failed for " ++ "el_2" ++ ": " ++ "boom" := by
  obtain ⟨_, _, _, _, h5⟩ := claim_C4 "el_2" ⟨"el_2", "#b", "button", "Go", none⟩
    ⟨false, false, false, false, "boom"⟩
  obtain ⟨ha, _, he⟩ := h5 "All click strategies failed for el_2: boom" rfl
  exact ⟨ha, he⟩

/-! ## Claim C3 -/

/-- C3 counterexample: fill does not invalidate the element index. On a
state holding a one-element snapshot, a successful fill returns the state
unchanged (the snapshot is still present), and a follow-up click that
references the identifier from the pre-fill index succeeds instead of
failing with the not-found error. -/
theorem claim_C3_counterexample :
    fillTool
      ⟨some [⟨"el_0", "#b", "button", "Go", none⟩], "https://a/",
        ["about:blank"], 1⟩
      ⟨true, ""⟩ "el_0" "hi" =
      .ok (⟨some [⟨"el_0", "#b", "button", "Go", none⟩], "https://a/",
        ["about:blank"], 1⟩, 2)
  ∧ (⟨some [⟨"el_0", "#b", "button", "Go", none⟩], "https://a/",
      ["about:blank"], 1⟩ : ToolState).lastSnapshot ≠ none
  ∧ clickTool
      ⟨some [⟨"el_0", "#b", "button", "Go", none⟩], "https://a/",
        ["about:blank"], 1⟩
      ⟨true, false, false, false, ""⟩
      ⟨"https://a/", 1, "https://b/", false, ""⟩ "el_0" =
      .ok (⟨none, "https://b/", ["about:blank", "https://b/"], 1⟩, false) := by
  refine ⟨by rfl, by simp, by rfl⟩

/-- C3 (amended): a successful click and a scroll invalidate the current
element index by clearing it, and a successful navigation replaces it with
the fresh index of the new page; fill leaves the index unchanged; while the
index is cleared, any click, fill or openLink referencing an identifier
fails with the not-found error. -/
theorem claim_C3 (st : ToolState) (cenv : ClickEnv) (cpost : ClickPostEnv)
    (fenv : FillEnv) (lenv : OpenLinkEnv) (nenv : NavEnv) (uid text : String) :
    (∀ st2 nt, clickTool st cenv cpost uid = .ok (st2, nt) →
      st2.lastSnapshot = none)
  ∧ (scrollTool st).lastSnapshot = none
  ∧ (∀ st2, (navigateTool st nenv).result = .ok st2 →
      st2.lastSnapshot = some nenv.freshSnap)
  ∧ (∀ st2 n, fillTool st fenv uid text = .ok (st2, n) →
      st2.lastSnapshot = st.lastSnapshot)
  ∧ (st.lastSnapshot = none →
      clickTool st cenv cpost uid = .error (notFoundMsg uid)
    ∧ fillTool st fenv uid text = .error (notFoundMsg uid)
    ∧ (openLinkTool st lenv uid).1 = .error (notFoundMsg uid)) := by
  refine ⟨?_, rfl, ?_, ?_, ?_⟩
  · intro st2 nt h
    unfold clickTool at h
    cases hfind : findSnapshotItem st uid with
    | none =>
      simp only [hfind] at h
      exact absurd h (by simp)
    | some item =>
      simp only [hfind] at h
      cases hres : (clickResolve uid item cenv).1 with
      | error e =>
        simp only [hres] at h
        exact absurd h (by simp)
      | ok k =>
        simp only [hres] at h
        split at h <;>
        · injection h with hpair
          injection hpair with hst hnt
          rw [← hst]
  · intro st2 h
    rw [navigateTool_result_ok st nenv st2 h]
    rfl
  · intro st2 n h
    unfold fillTool at h
    cases hfind : findSnapshotItem st uid with
    | none =>
      rw [hfind] at h
      simp at h
    | some item =>
      rw [hfind] at h
      by_cases hok : fenv.fillOk = true
      · simp [hok] at h
        rw [← h.1]
      · simp [hok] at h
  · intro hnone
    have hfind : findSnapshotItem st uid = none := by
      unfold findSnapshotItem
      rw [hnone]
    refine ⟨?_, ?_, ?_⟩
    · unfold clickTool
      rw [hfind]
    · unfold fillTool
      rw [hfind]
    · unfold openLinkTool
      rw [hfind]

/-- Witness for C3: on a state whose element index has been cleared, a click
referencing any identifier fails with the not-found error. -/
theorem claim_C3_witness :
    clickTool ⟨none, "https://a/", ["about:blank"], 1⟩
      ⟨true, true, true, true, ""⟩ ⟨"https://a/", 1, "https://a/", false, ""⟩
      "el_7" = .error (notFoundMsg "el_7") :=
  ((claim_C3 ⟨none, "https://a/", ["about:blank"], 1⟩
    ⟨true, true, true, true, ""⟩ ⟨"https://a/", 1, "https://a/", false, ""⟩
    ⟨true, ""⟩ ⟨none, fun _ => none, "", true, "", ""⟩
    ⟨.ok (), true, true, .ok (), "", []⟩ "el_7" "t").2.2.2.2 rfl).1

/-- Witness for C9: loading a list with a padded duplicate and an empty
entry yields a pool that contains the trimmed address and rejects the empty
string. -/
theorem claim_C9_witness :
    "a" ∈ poolInit (fun _ => 0) [" a", "a", ""]
  ∧ ("" ∈ poolInit (fun _ => 0) [" a", "a", ""] → False) := by
  obtain ⟨_, _, hne, hmem⟩ := claim_C9 [" a", "a", ""] (fun _ => 0)
  exact ⟨(hmem "a").mpr ⟨by decide, by decide⟩, hne⟩

end XdChrome
